import Mathlib

set_option linter.unusedVariables false

/-!
Verification of the claim-based rental search engine: a shallow embedding of
the search/scoring pipeline (app/search/validators.py, scorers.py, filters.py,
pipeline.py), the quantifier serialization of the indexer
(app/indexer/pipeline.py), the grounding gate (app/services/grounding.py) and
the deduplication service (app/services/deduplication.py).

Python floats are modelled as rationals extended with a positive infinity
(PyVal), since the only non-finite value the code manipulates is
float("inf").  Python dicts read from the store are modelled as structures of
Option fields (a .get that can return None), and dicts used as keyed
accumulators as association lists that preserve insertion order, matching
CPython dict semantics.
-/

/-- Python float values occurring in quantifier bounds: finite rationals or
float("inf").  Comparisons follow IEEE/Python semantics for these values. -/
inductive PyVal where
  | num (val : ℚ)
  | inf
deriving DecidableEq, Repr

/-- Python comparison a <= b on PyVal. -/
def PyVal.le : PyVal → PyVal → Bool
  | .num a, .num b => decide (a ≤ b)
  | .num _, .inf => true
  | .inf, .num _ => false
  | .inf, .inf => true

/-- Python comparison a < b on PyVal. -/
def PyVal.lt : PyVal → PyVal → Bool
  | .num a, .num b => decide (a < b)
  | .num _, .inf => true
  | .inf, _ => false

/-- ClaimType enum of app/models.py. -/
inductive ClaimType where
  | location | features | amenities | size | condition | pricing
  | accessibility | policies | utilities | transport | neighborhood
  | restrictions
deriving DecidableEq, Repr

/-- Domain enum of app/models.py. -/
inductive Domain where
  | neighborhood | apartment | room
deriving DecidableEq, Repr

/-- QuantifierOp enum of app/models.py. -/
inductive QuantifierOp where
  | EQUALS | GT | GTE | LT | LTE | APPROX | RANGE
deriving DecidableEq, Repr

/-- QuantifierType enum of app/models.py. -/
inductive QuantifierType where
  | money | area | count | distance | duration
deriving DecidableEq, Repr

/-- String value of a QuantifierType member, as pydantic serializes it. -/
def QuantifierType.value : QuantifierType → String
  | .money => "money"
  | .area => "area"
  | .count => "count"
  | .distance => "distance"
  | .duration => "duration"

/-- String value of a QuantifierOp member, as pydantic serializes it. -/
def QuantifierOp.value : QuantifierOp → String
  | .EQUALS => "EQUALS"
  | .GT => "GT"
  | .GTE => "GTE"
  | .LT => "LT"
  | .LTE => "LTE"
  | .APPROX => "APPROX"
  | .RANGE => "RANGE"

/-- Quantifier model of app/models.py (vmin/vmax are floats, possibly inf). -/
structure Quantifier where
  qtype : QuantifierType
  noun : String
  vmin : PyVal
  vmax : PyVal
  op : QuantifierOp
  unit : Option String := none
deriving DecidableEq, Repr

/-- ClaimSource model of app/models.py. -/
structure ClaimSource where
  type : String
  image_url : Option String := none
  image_index : Option Nat := none
deriving DecidableEq, Repr

/-- ClaimKind enum of app/models.py. -/
inductive ClaimKind where
  | base | derived | anti | verified
deriving DecidableEq, Repr

/-- Claim model of app/models.py (the fields the verified code paths read). -/
structure Claim where
  claim : String
  claim_type : ClaimType
  domain : Domain
  room_type : Option String := none
  is_specific : Bool := false
  has_quantifiers : Bool := false
  quantifiers : List Quantifier := []
  kind : ClaimKind := ClaimKind.base
  from_claim : Option String := none
  negation : Bool := false
  source : Option ClaimSource := none
deriving DecidableEq, Repr

/-- A quantifier dict as read back from the vector store: every field is
accessed with dict.get, which can return None, so each field is an Option. -/
structure MatchedQuantifier where
  qtype : Option String := none
  noun : Option String := none
  vmin : Option PyVal := none
  vmax : Option PyVal := none
  op : Option String := none
  unit : Option String := none
deriving DecidableEq, Repr

/-- Inner loop of ClaimValidator.validate_quantifiers (validators.py lines
18-22): the first matched quantifier whose qtype and noun equal the search
quantifier's, or none. -/
def find_matched_quantifier (search_q : Quantifier) :
    List MatchedQuantifier → Option MatchedQuantifier
  | [] => none
  | mq :: rest =>
      if mq.qtype = some search_q.qtype.value ∧ mq.noun = some search_q.noun then
        some mq
      else
        find_matched_quantifier search_q rest

/-- Per-search-quantifier check of ClaimValidator.validate_quantifiers
(validators.py lines 24-55): skip when there is no matched quantifier for the
same (qtype, noun) or when its bounds are null, else apply the op-specific
predicate. -/
def quantifier_check (search_q : Quantifier) (matched_quantifiers : List MatchedQuantifier) : Bool :=
  match find_matched_quantifier search_q matched_quantifiers with
  | none => true
  | some mq =>
      match mq.vmin, mq.vmax with
      | some matched_vmin, some matched_vmax =>
          match search_q.op with
          | .GTE => PyVal.le search_q.vmin matched_vmin
          | .LTE => PyVal.le matched_vmax search_q.vmax
          | .GT => PyVal.lt search_q.vmin matched_vmin
          | .LT => PyVal.lt matched_vmax search_q.vmax
          | .EQUALS => PyVal.le matched_vmin search_q.vmin && PyVal.le search_q.vmin matched_vmax
          | .RANGE => !(PyVal.lt matched_vmax search_q.vmin || PyVal.lt search_q.vmax matched_vmin)
          | .APPROX => PyVal.le matched_vmin search_q.vmin && PyVal.le search_q.vmin matched_vmax
      | _, _ => true

/-- ClaimValidator.validate_quantifiers (validators.py lines 10-57): the loop
with early return False is the conjunction of the per-quantifier checks. -/
def validate_quantifiers (search_claim : Claim) (matched_quantifiers : List MatchedQuantifier) : Bool :=
  if search_claim.quantifiers.isEmpty then
    true
  else if matched_quantifiers.isEmpty then
    true
  else
    search_claim.quantifiers.all (fun q => quantifier_check q matched_quantifiers)

/-- Spec-side reading of the op table of validate_quantifiers, one Prop per
QuantifierOp, over the matched bounds (a, b) = (matched.vmin, matched.vmax). -/
def quantifier_spec_ok (q : Quantifier) (a b : PyVal) : Prop :=
  match q.op with
  | .GTE => PyVal.le q.vmin a = true
  | .LTE => PyVal.le b q.vmax = true
  | .GT => PyVal.lt q.vmin a = true
  | .LT => PyVal.lt b q.vmax = true
  | .EQUALS => PyVal.le a q.vmin = true ∧ PyVal.le q.vmin b = true
  | .RANGE => ¬(PyVal.lt b q.vmin = true ∨ PyVal.lt q.vmax a = true)
  | .APPROX => PyVal.le a q.vmin = true ∧ PyVal.le q.vmin b = true

/-- CLAIM_TYPE_THRESHOLDS of app/search/constants.py.  The dict lists all 12
claim types, so the .get default of 0.75 used by the scorer never fires. -/
def CLAIM_TYPE_THRESHOLDS : ClaimType → ℚ
  | .location => 0.92
  | .features => 0.75
  | .amenities => 0.70
  | .size => 0.80
  | .condition => 0.75
  | .pricing => 0.85
  | .accessibility => 0.75
  | .policies => 0.80
  | .utilities => 0.75
  | .transport => 0.75
  | .neighborhood => 0.73
  | .restrictions => 0.80

/-- A match dict as the domain searchers build it (app/search/domain_searchers.py):
search claim text and object, matched claim text, ANN score, stored kind string,
the search claim's type, the stored quantifier dicts and the stored negation. -/
structure Match where
  search_claim : String
  search_claim_obj : Option Claim := none
  matched_claim : String
  score : ℚ
  kind : String := "base"
  claim_type : ClaimType
  quantifiers : List MatchedQuantifier := []
  matched_negation : Bool := false
deriving DecidableEq, Repr

/-- Threshold selection of ResultScorer.apply_match_validation (scorers.py
lines 79-83): the per-type table value, replaced by 0.9 for a specific
location search claim. -/
def selected_threshold (m : Match) : ℚ :=
  let threshold := CLAIM_TYPE_THRESHOLDS m.claim_type
  match m.search_claim_obj with
  | some sc =>
      if sc.is_specific = true ∧ sc.claim_type = ClaimType.location then 0.9 else threshold
  | none => threshold

/-- ResultScorer.apply_match_validation (scorers.py lines 76-118).  The
compatibility cache dict with its .get(pair, "compatible") default is modelled
as a total function from pairs to the compatibility string. -/
def apply_match_validation (m : Match) (compatibility_cache : String × String → String)
    (double_check_matches : Bool) : ℚ × Bool :=
  let threshold := selected_threshold m
  if double_check_matches = false ∧ m.score < threshold then
    (0, false)
  else
    let base_score := m.score
    let base_score :=
      match m.search_claim_obj with
      | some sc =>
          let is_valid := validate_quantifiers sc m.quantifiers
          if is_valid = false then base_score * 0.1
          else if m.kind = "anti" ∧ base_score ≥ 0.85 then base_score * 0.01
          else if m.kind = "anti" then base_score * 0.05
          else if sc.negation ≠ m.matched_negation then base_score * 0.1
          else base_score
      | none => base_score
    let compatibility := compatibility_cache (m.search_claim, m.matched_claim)
    if compatibility = "incompatible" then (0, false)
    else if compatibility = "partial" then (base_score * 0.5, true)
    else (base_score, true)

/-- Lookup in the validated-best dict (modelled as an insertion-ordered
association list, CPython dict semantics). -/
def lookup_validated (acc : List (String × Match × ℚ)) (k : String) : Option (Match × ℚ) :=
  match acc.find? (fun e => e.1 == k) with
  | some e => some e.2
  | none => none

/-- In-place dict value update: the key keeps its position. -/
def update_validated (acc : List (String × Match × ℚ)) (k : String) (v : Match × ℚ) :
    List (String × Match × ℚ) :=
  acc.map (fun e => if e.1 == k then (k, v) else e)

/-- ResultScorer.get_validated_best_matches (scorers.py lines 120-139): keep,
per search claim, the surviving match with the highest validated score. -/
def get_validated_best_matches (all_matches : List Match)
    (compatibility_cache : String × String → String) (double_check_matches : Bool) :
    List (String × Match × ℚ) :=
  all_matches.foldl
    (fun acc m =>
      let r := apply_match_validation m compatibility_cache double_check_matches
      if r.2 = false ∨ r.1 ≤ 0 then acc
      else
        match lookup_validated acc m.search_claim with
        | none => acc ++ [(m.search_claim, (m, r.1))]
        | some old =>
            if old.2 < r.1 then update_validated acc m.search_claim (m, r.1) else acc)
    []

/-- Sum of the validated scores stored in a validated-best dict. -/
def sum_validated_scores (validated_matches : List (String × Match × ℚ)) : ℚ :=
  (validated_matches.map (fun e => e.2.2)).sum

/-- ResultScorer.calculate_score_from_validated_matches (scorers.py lines
141-148). -/
def calculate_score_from_validated_matches (validated_matches : List (String × Match × ℚ))
    (search_claims : List Claim) : ℚ :=
  if search_claims.isEmpty || validated_matches.isEmpty then 0
  else sum_validated_scores validated_matches / (search_claims.length : ℚ)

/-- Per-apartment slice of ResultScorer.rank_results (scorers.py lines
181-210): partition the search claims by domain, validate each domain's
matches, and compute the three per-domain scores. -/
def rank_scores_for_apartment (all_room_matches all_apt_matches all_neighborhood_matches : List Match)
    (search_claims : List Claim) (compatibility_cache : String × String → String)
    (double_check_matches : Bool) : ℚ × ℚ × ℚ :=
  let room_claims := search_claims.filter (fun c => c.domain == Domain.room)
  let apt_claims := search_claims.filter (fun c => c.domain == Domain.apartment)
  let neighborhood_claims := search_claims.filter (fun c => c.domain == Domain.neighborhood)
  let validated_room := get_validated_best_matches all_room_matches compatibility_cache double_check_matches
  let validated_apt := get_validated_best_matches all_apt_matches compatibility_cache double_check_matches
  let validated_nbh := get_validated_best_matches all_neighborhood_matches compatibility_cache double_check_matches
  (calculate_score_from_validated_matches validated_room room_claims,
   calculate_score_from_validated_matches validated_apt apt_claims,
   calculate_score_from_validated_matches validated_nbh neighborhood_claims)

/-- Lookup with default [] on a dict of matches keyed by id, modelling
room_matches.get(apartment_id, []). -/
def dict_get_matches (d : List (String × List Match)) (k : String) : List Match :=
  match d.find? (fun e => e.1 == k) with
  | some e => e.2
  | none => []

/-- Match gathering of SearchFilters.filter_by_anti_claims (filters.py lines
119-124): the apartment's room and apartment matches plus the match lists of
every neighborhood (the code iterates neighborhood_matches.items() without
restricting to the apartment's neighborhood). -/
def all_matches_for_apartment (room_matches apartment_matches neighborhood_matches : List (String × List Match))
    (apartment_id : String) : List Match :=
  dict_get_matches room_matches apartment_id ++ dict_get_matches apartment_matches apartment_id ++
    (neighborhood_matches.map Prod.snd).flatten

/-- Keys of a dict built by first-seen insertion, in order: the grouping keys
of matches_by_search_claim (filters.py lines 126-135). -/
def ordered_keys : List String → List String
  | [] => []
  | s :: rest => s :: ordered_keys (rest.filter (fun t => !(t == s)))
termination_by l => l.length
decreasing_by
  simp only [List.length_cons]
  exact Nat.lt_succ_of_le (List.length_filter_le _ _)

/-- The "anti" bucket of a search claim's group (filters.py lines 132-133). -/
def anti_matches (ms : List Match) (s : String) : List Match :=
  ms.filter (fun m => m.search_claim == s && m.kind == "anti")

/-- The "positive" bucket of a search claim's group (filters.py lines
134-135). -/
def positive_matches (ms : List Match) (s : String) : List Match :=
  ms.filter (fun m => m.search_claim == s && !(m.kind == "anti"))

/-- Maximum score of a list of matches, none when empty: max(m.get("score", 0)
for m in matches) with Python's max default handling. -/
def best_score_opt : List Match → Option ℚ
  | [] => none
  | m :: rest => some (rest.foldl (fun acc x => max acc x.score) m.score)

/-- Body of the per-group loop of SearchFilters.filter_by_anti_claims
(filters.py lines 137-159): the group of search claim s triggers exclusion
when it has anti matches whose best score reaches the threshold and strictly
exceeds the group's best positive score. -/
def group_triggers (all_matches : List Match) (anti_claim_threshold : ℚ) (s : String) : Bool :=
  let antis := anti_matches all_matches s
  let positives := positive_matches all_matches s
  if antis.isEmpty then false
  else
    let best_anti_score := (best_score_opt antis).getD 0
    if best_anti_score < anti_claim_threshold then false
    else
      let best_positive_score := (best_score_opt positives).getD 0
      decide (best_positive_score < best_anti_score)

/-- Per-apartment decision of SearchFilters.filter_by_anti_claims (filters.py
lines 137-159): some search-claim group triggers exclusion. -/
def should_exclude_apartment (all_matches : List Match) (anti_claim_threshold : ℚ) : Bool :=
  (ordered_keys (all_matches.map (fun m => m.search_claim))).any
    (group_triggers all_matches anti_claim_threshold)

/-- Default anti_claim_threshold of filter_by_anti_claims (filters.py line
114). -/
def anti_claim_threshold : ℚ := 0.90

/-- SearchFilters.filter_by_anti_claims (filters.py lines 108-161): the set of
apartments minus those a dominating anti-claim excludes. -/
def filter_by_anti_claims (apartments : List String)
    (room_matches apartment_matches neighborhood_matches : List (String × List Match))
    (threshold : ℚ) : List String :=
  apartments.filter (fun apartment_id =>
    !(should_exclude_apartment
        (all_matches_for_apartment room_matches apartment_matches neighborhood_matches apartment_id)
        threshold))

/-- Per-quantifier body of IndexerPipeline.serialize_quantifiers
(app/indexer/pipeline.py lines 418-427): model_dump the quantifier and replace
an infinite bound by the sentinel 999999999. -/
def serialize_quantifier (q : Quantifier) : MatchedQuantifier :=
  { qtype := some q.qtype.value
    noun := some q.noun
    vmin := some (if q.vmin = PyVal.inf then PyVal.num 999999999 else q.vmin)
    vmax := some (if q.vmax = PyVal.inf then PyVal.num 999999999 else q.vmax)
    op := some q.op.value
    unit := q.unit }

/-- IndexerPipeline.serialize_quantifiers (app/indexer/pipeline.py lines
418-427). -/
def serialize_quantifiers (quantifiers : List Quantifier) : List MatchedQuantifier :=
  quantifiers.map serialize_quantifier

/-- A rooms-index hit _source as RoomSearcher.search reads it
(app/search/domain_searchers.py lines 27, 36-49). -/
structure RoomHit where
  apartment_id : String
  claim : String
  score : ℚ
  kind : String
  room_type : Option String := none
  quantifiers : List MatchedQuantifier := []
  negation : Bool := false
deriving DecidableEq, Repr

/-- Match construction of RoomSearcher.search (domain_searchers.py lines
36-49): the stored quantifier dicts are passed through unchanged. -/
def room_hit_to_match (search_claim : Claim) (hit : RoomHit) : Match :=
  { search_claim := search_claim.claim
    search_claim_obj := some search_claim
    matched_claim := hit.claim
    score := hit.score
    kind := hit.kind
    claim_type := search_claim.claim_type
    quantifiers := hit.quantifiers
    matched_negation := hit.negation }

/-- GroundingService.should_ground_claim (app/services/grounding.py lines
32-49); settings.enable_grounding is passed in as the configuration flag. -/
def should_ground_claim (enable_grounding : Bool) (claim : Claim) : Bool :=
  if enable_grounding = false then false
  else if claim.domain = Domain.room then false
  else if claim.is_specific = false then false
  else if claim.claim_type = ClaimType.location ∨ claim.claim_type = ClaimType.transport
      ∨ claim.claim_type = ClaimType.amenities then true
  else false

/-- The availability keywords of SearchPipeline filter_redundant_claims
(app/search/pipeline.py line 65). -/
def availability_keywords : List String :=
  ["available", "availability", "lease start", "move-in date", "move in"]

/-- Character-list test: the haystack starts with the needle. -/
def chars_start_with : List Char → List Char → Bool
  | _, [] => true
  | [], _ :: _ => false
  | a :: as, b :: bs => a == b && chars_start_with as bs

/-- Character-list substring test, modelling the Python expression
keyword in text. -/
def chars_contain : List Char → List Char → Bool
  | [], needle => needle.isEmpty
  | a :: as, needle => chars_start_with (a :: as) needle || chars_contain as needle

/-- The inner any(keyword in claim.claim.lower() ...) of
filter_redundant_claims (pipeline.py line 66). -/
def mentions_availability (text : String) : Bool :=
  availability_keywords.any (fun k => chars_contain text.toLower.data k.data)

/-- Membership of the two structured-filter keys in the structured_filters
dict (the only facts filter_redundant_claims reads from it). -/
structure StructuredFilters where
  rent_price_present : Bool := false
  availability_dates_present : Bool := false
deriving DecidableEq, Repr

/-- SearchPipeline filter_redundant_claims (app/search/pipeline.py lines
57-71). -/
def filter_redundant_claims (search_claims : List Claim) (sf : StructuredFilters) : List Claim :=
  match search_claims with
  | [] => []
  | c :: rest =>
      if c.claim_type = ClaimType.pricing ∧ sf.rent_price_present = true then
        filter_redundant_claims rest sf
      else if c.claim_type = ClaimType.restrictions ∧ sf.availability_dates_present = true
          ∧ mentions_availability c.claim = true then
        filter_redundant_claims rest sf
      else c :: filter_redundant_claims rest sf

/-- DeduplicationService merge_sources (app/services/deduplication.py lines
80-90): prefer the first text source, else the first image source, else a
fresh text source. -/
def merge_sources (sources : List ClaimSource) : ClaimSource :=
  match sources.find? (fun s => s.type == "text") with
  | some text_source => text_source
  | none =>
      match (sources.filter (fun s => s.type == "image")).head? with
      | some image_source => image_source
      | none => { type := "text" }

/-- The merged_sources accumulator of deduplicate_claims (deduplication.py
lines 34, 48-49): the head claim's source, then each duplicate's source that
is present and not already collected. -/
def merged_sources_of (c : Claim) (dups : List Claim) : List ClaimSource :=
  dups.foldl
    (fun acc d =>
      match d.source with
      | some s => if s ∈ acc then acc else acc ++ [s]
      | none => acc)
    (match c.source with
     | some s => [s]
     | none => [])

/-- The final_claim of one outer iteration of deduplicate_claims
(deduplication.py lines 54-59): the head claim, with its source replaced by
the merge when duplicates were found and more than one source was
collected. -/
def dedup_head_claim (c : Claim) (dups : List Claim) : Claim :=
  let ms := merged_sources_of c dups
  if !dups.isEmpty && decide (ms.length > 1) then
    { c with source := some (merge_sources ms) }
  else c

/-- Core loop of DeduplicationService.deduplicate_claims (deduplication.py
lines 27-61) over (claim, embedding) pairs: the head claim is kept and every
later claim with similarity at least the threshold to it is marked seen
(merged into the head); the loop then continues on the unseen rest. -/
def dedupe_scan {E : Type} (sim : E → E → ℚ) (threshold : ℚ) :
    List (Claim × E) → List Claim
  | [] => []
  | (c, e) :: rest =>
      let dups := rest.filter (fun p => decide (sim e p.2 ≥ threshold))
      let unseen := rest.filter (fun p => decide (sim e p.2 < threshold))
      dedup_head_claim c (dups.map Prod.fst) :: dedupe_scan sim threshold unseen
termination_by l => l.length
decreasing_by
  simp only [List.length_cons]
  exact Nat.lt_succ_of_le (List.length_filter_le _ _)

/-- Default similarity_threshold of DeduplicationService (deduplication.py
line 13). -/
def similarity_threshold : ℚ := 0.98

/-- DeduplicationService.deduplicate_claims (deduplication.py lines 16-66).
The external embedding service is a function from claim text to an embedding,
and the cosine similarity of two embeddings a function into ℚ: the code only
consumes similarity through the comparison against the threshold, and the
claims verified here hold for every such pair of functions. -/
def deduplicate_claims {E : Type} (sim : E → E → ℚ) (threshold : ℚ)
    (embed : String → E) (claims : List Claim) : List Claim :=
  if claims.length ≤ 1 then claims
  else dedupe_scan sim threshold (claims.map (fun c => (c, embed c.claim)))

/-- A compatibility cache with no entries: every pair falls back to the
.get(pair, "compatible") default. -/
def default_cache : String × String → String := fun _ => "compatible"

/-- A claim carrying exactly one quantifier, to compare two quantifiers
through validate_quantifiers; the validator reads nothing else from it. -/
def claim_of_quantifier (q : Quantifier) : Claim :=
  { claim := "quantified claim"
    claim_type := ClaimType.size
    domain := Domain.apartment
    has_quantifiers := true
    quantifiers := [q] }

/-- The store-side dict carrying a quantifier's fields verbatim, as
validate_quantifiers reads a matched quantifier. -/
def matched_of_quantifier (q : Quantifier) : MatchedQuantifier :=
  { qtype := some q.qtype.value
    noun := some q.noun
    vmin := some q.vmin
    vmax := some q.vmax
    op := some q.op.value
    unit := q.unit }

/-- Interval disjointness of two quantifiers, as the RANGE branch of
validate_quantifiers tests it (validators.py line 46). -/
def intervals_disjoint (A B : Quantifier) : Bool :=
  PyVal.lt B.vmax A.vmin || PyVal.lt A.vmax B.vmin

/-- Concrete RANGE quantifier [1, 5] on (money, rent). -/
def range_quantifier_A : Quantifier :=
  { qtype := QuantifierType.money
    noun := "rent"
    vmin := PyVal.num 1
    vmax := PyVal.num 5
    op := QuantifierOp.RANGE }

/-- Concrete RANGE quantifier [3, 7] on (money, rent). -/
def range_quantifier_B : Quantifier :=
  { qtype := QuantifierType.money
    noun := "rent"
    vmin := PyVal.num 3
    vmax := PyVal.num 7
    op := QuantifierOp.RANGE }

/-- A location search claim marked is_specific. -/
def specific_location_claim : Claim :=
  { claim := "near the Eiffel Tower"
    claim_type := ClaimType.location
    domain := Domain.neighborhood
    is_specific := true }

/-- A match for the specific location claim whose score 0.91 sits between the
is_specific threshold 0.9 and the LOCATION table threshold 0.92. -/
def specific_location_match : Match :=
  { search_claim := "near the Eiffel Tower"
    search_claim_obj := some specific_location_claim
    matched_claim := "close to the Eiffel Tower"
    score := 0.91
    kind := "base"
    claim_type := ClaimType.location }

/-- A room-domain search claim. -/
def room_desk_claim : Claim :=
  { claim := "room with a desk"
    claim_type := ClaimType.features
    domain := Domain.room }

/-- An apartment-domain search claim. -/
def balcony_claim : Claim :=
  { claim := "has a balcony"
    claim_type := ClaimType.features
    domain := Domain.apartment }

/-- A surviving room match for room_desk_claim with score 0.8. -/
def room_desk_match : Match :=
  { search_claim := "room with a desk"
    search_claim_obj := some room_desk_claim
    matched_claim := "bedroom with a large desk"
    score := 0.8
    kind := "base"
    claim_type := ClaimType.features }

/-- A quantifier with an infinite upper bound, as the quantifier extractor
produces for an at-least phrasing. -/
def inf_quantifier : Quantifier :=
  { qtype := QuantifierType.money
    noun := "rent"
    vmin := PyVal.num 1000
    vmax := PyVal.inf
    op := QuantifierOp.GTE
    unit := some ("usd") }

/-- The stored dict serialize_quantifiers writes for inf_quantifier: the
infinite vmax replaced by the sentinel. -/
def sentinel_stored_quantifier : MatchedQuantifier :=
  { qtype := some ("money")
    noun := some ("rent")
    vmin := some (PyVal.num 1000)
    vmax := some (PyVal.num 999999999)
    op := some ("GTE")
    unit := some ("usd") }

/-- The dict a sentinel-aware reader would hand downstream: vmax restored to
infinity. -/
def restored_inf_quantifier : MatchedQuantifier :=
  { qtype := some ("money")
    noun := some ("rent")
    vmin := some (PyVal.num 1000)
    vmax := some (PyVal.inf)
    op := some ("GTE")
    unit := some ("usd") }

/-- A search claim asking for rent at most 2000000000, above the sentinel. -/
def big_budget_claim : Claim :=
  { claim := "rent below two billion"
    claim_type := ClaimType.pricing
    domain := Domain.apartment
    has_quantifiers := true
    quantifiers := [{ qtype := QuantifierType.money
                      noun := "rent"
                      vmin := PyVal.num 0
                      vmax := PyVal.num 2000000000
                      op := QuantifierOp.LTE }] }

/-- A rooms-index hit carrying the serialized sentinel quantifier. -/
def sentinel_room_hit : RoomHit :=
  { apartment_id := "apt1"
    claim := "rent from 1000 dollars"
    score := 0.9
    kind := "base"
    quantifiers := [sentinel_stored_quantifier] }

/-- A search claim whose count quantifier the matched document fails. -/
def anti_invalid_claim : Claim :=
  { claim := "three bedrooms"
    claim_type := ClaimType.features
    domain := Domain.apartment
    has_quantifiers := true
    quantifiers := [{ qtype := QuantifierType.count
                      noun := "bedroom"
                      vmin := PyVal.num 3
                      vmax := PyVal.num 3
                      op := QuantifierOp.EQUALS }] }

/-- An anti-kind match for anti_invalid_claim whose matched quantifiers fail
validation: both the quantifier penalty and the anti penalty are candidates,
and only the quantifier penalty fires. -/
def anti_invalid_match : Match :=
  { search_claim := "three bedrooms"
    search_claim_obj := some anti_invalid_claim
    matched_claim := "one to two bedrooms"
    score := 0.88
    kind := "anti"
    claim_type := ClaimType.features
    quantifiers := [{ qtype := some ("count")
                      noun := some ("bedroom")
                      vmin := some (PyVal.num 1)
                      vmax := some (PyVal.num 2) }] }

/-- An anti match with score 0.95 for the pet claim. -/
def pets_anti_match : Match :=
  { search_claim := "no pets allowed"
    matched_claim := "pets allowed"
    score := 0.95
    kind := "anti"
    claim_type := ClaimType.policies }

/-- A positive match with score 0.5 for the pet claim. -/
def pets_positive_match : Match :=
  { search_claim := "no pets allowed"
    matched_claim := "no animals in the building"
    score := 0.5
    kind := "base"
    claim_type := ClaimType.policies }

/-- Room matches dict of the anti-gate example: one apartment whose pet claim
group has best anti 0.95 against best positive 0.5. -/
def anti_gate_room_matches : List (String × List Match) :=
  [("apt1", [pets_anti_match, pets_positive_match])]

theorem quantifier_check_iff (q : Quantifier) (mqs : List MatchedQuantifier) :
    quantifier_check q mqs = true ↔
      ∀ mq, find_matched_quantifier q mqs = some mq →
        ∀ a b, mq.vmin = some a → mq.vmax = some b → quantifier_spec_ok q a b := by
  unfold quantifier_check
  cases hfind : find_matched_quantifier q mqs with
  | none => simp
  | some mq =>
      cases hmin : mq.vmin with
      | none => simp [hmin]
      | some a =>
          cases hmax : mq.vmax with
          | none => simp [hmin, hmax]
          | some b =>
              simp only [hmin, hmax]
              constructor
              · intro h mq2 heq a2 b2 ha2 hb2
                injection heq with heq
                subst heq
                rw [hmin] at ha2
                rw [hmax] at hb2
                injection ha2 with ha2
                injection hb2 with hb2
                subst ha2
                subst hb2
                unfold quantifier_spec_ok
                cases hop : q.op <;> simp [hop] at h ⊢ <;> tauto
              · intro h
                have h2 := h mq rfl a b hmin hmax
                unfold quantifier_spec_ok at h2
                cases hop : q.op <;> simp [hop] at h2 ⊢ <;> tauto

/-- C2: validate_quantifiers(search_claim, matched_quantifiers) returns true
iff every quantifier of the search claim whose first matched quantifier with
identical (qtype, noun) exists and has non-null bounds satisfies the
op-specific predicate (GTE, GT, LTE, LT, EQUALS, APPROX, RANGE as in the
table); a search quantifier with no matched quantifier of the same
(qtype, noun) is skipped, and a single false predicate rejects the pair. -/
theorem validate_quantifiers_iff_spec (sc : Claim) (mqs : List MatchedQuantifier) :
    validate_quantifiers sc mqs = true ↔
      ∀ q ∈ sc.quantifiers, ∀ mq, find_matched_quantifier q mqs = some mq →
        ∀ a b, mq.vmin = some a → mq.vmax = some b → quantifier_spec_ok q a b := by
  by_cases h1 : sc.quantifiers.isEmpty
  · have h1' := List.isEmpty_iff.mp h1
    simp [validate_quantifiers, h1', h1]
  · by_cases h2 : mqs.isEmpty
    · have h2' := List.isEmpty_iff.mp h2
      subst h2'
      simp [validate_quantifiers, h1, find_matched_quantifier]
    · simp [validate_quantifiers, h1, h2, List.all_eq_true, quantifier_check_iff]

/-- C3: for two quantifiers with the RANGE op and identical (qtype, noun),
validating either against the other through validate_quantifiers gives the
same result, and both equal the non-disjointness of the two intervals. -/
theorem range_validation_symmetric (A B : Quantifier)
    (hA : A.op = QuantifierOp.RANGE) (hB : B.op = QuantifierOp.RANGE)
    (hq : A.qtype = B.qtype) (hn : A.noun = B.noun) :
    validate_quantifiers (claim_of_quantifier A) [matched_of_quantifier B] =
      validate_quantifiers (claim_of_quantifier B) [matched_of_quantifier A] ∧
    validate_quantifiers (claim_of_quantifier A) [matched_of_quantifier B] =
      !(intervals_disjoint A B) := by
  have e1 : validate_quantifiers (claim_of_quantifier A) [matched_of_quantifier B] =
      !(intervals_disjoint A B) := by
    simp [validate_quantifiers, claim_of_quantifier, quantifier_check,
      find_matched_quantifier, matched_of_quantifier, hq, hn, hA, intervals_disjoint]
  have e2 : validate_quantifiers (claim_of_quantifier B) [matched_of_quantifier A] =
      !(intervals_disjoint B A) := by
    simp [validate_quantifiers, claim_of_quantifier, quantifier_check,
      find_matched_quantifier, matched_of_quantifier, hq.symm, hn.symm, hB, intervals_disjoint]
  have e3 : intervals_disjoint B A = intervals_disjoint A B := by
    simp [intervals_disjoint, Bool.or_comm]
  exact ⟨by rw [e1, e2, e3], e1⟩

theorem range_validation_symmetric_witness :
    validate_quantifiers (claim_of_quantifier range_quantifier_A)
        [matched_of_quantifier range_quantifier_B] =
      validate_quantifiers (claim_of_quantifier range_quantifier_B)
        [matched_of_quantifier range_quantifier_A] ∧
    validate_quantifiers (claim_of_quantifier range_quantifier_A)
        [matched_of_quantifier range_quantifier_B] =
      !(intervals_disjoint range_quantifier_A range_quantifier_B) :=
  range_validation_symmetric range_quantifier_A range_quantifier_B rfl rfl rfl rfl

/-- C5 counterexample: for a location claim marked is_specific the selected
threshold is 0.9, strictly below the LOCATION table value 0.92 the same claim
states, so the threshold is lowered, not raised; a match scoring 0.91 (below
the table threshold) is accepted with its raw score. -/
theorem specific_location_threshold_lowered :
    selected_threshold specific_location_match = 0.9 ∧
    CLAIM_TYPE_THRESHOLDS ClaimType.location = 0.92 ∧
    selected_threshold specific_location_match < CLAIM_TYPE_THRESHOLDS ClaimType.location ∧
    apply_match_validation specific_location_match default_cache false = (0.91, true) := by
  refine ⟨rfl, rfl, by norm_num [selected_threshold, specific_location_match,
    specific_location_claim, CLAIM_TYPE_THRESHOLDS], ?_⟩
  simp only [apply_match_validation, selected_threshold, specific_location_match,
    specific_location_claim, validate_quantifiers, default_cache]
  norm_num
  simp

/-- C5 amended: apply_match_validation selects the acceptance threshold from
the per-type table (LOCATION 0.92, SIZE 0.80, PRICING 0.85, POLICIES 0.80,
RESTRICTIONS 0.80, NEIGHBORHOOD 0.73, AMENITIES 0.70, others 0.75); for
location claims marked is_specific the threshold is set to 0.90 (a lowering
from the table's 0.92, not a raise); and when double_check is false, any match
scoring below the selected threshold is rejected with validated score 0. -/
theorem threshold_selection_spec :
    ∀ (m : Match) (cache : String × String → String),
      (CLAIM_TYPE_THRESHOLDS ClaimType.location = 0.92 ∧
        CLAIM_TYPE_THRESHOLDS ClaimType.size = 0.80 ∧
        CLAIM_TYPE_THRESHOLDS ClaimType.pricing = 0.85 ∧
        CLAIM_TYPE_THRESHOLDS ClaimType.policies = 0.80 ∧
        CLAIM_TYPE_THRESHOLDS ClaimType.restrictions = 0.80 ∧
        CLAIM_TYPE_THRESHOLDS ClaimType.neighborhood = 0.73 ∧
        CLAIM_TYPE_THRESHOLDS ClaimType.amenities = 0.70 ∧
        CLAIM_TYPE_THRESHOLDS ClaimType.features = 0.75 ∧
        CLAIM_TYPE_THRESHOLDS ClaimType.condition = 0.75 ∧
        CLAIM_TYPE_THRESHOLDS ClaimType.accessibility = 0.75 ∧
        CLAIM_TYPE_THRESHOLDS ClaimType.utilities = 0.75 ∧
        CLAIM_TYPE_THRESHOLDS ClaimType.transport = 0.75) ∧
      (∀ sc, m.search_claim_obj = some sc → sc.is_specific = true →
        sc.claim_type = ClaimType.location → selected_threshold m = 0.9) ∧
      (m.search_claim_obj = none →
        selected_threshold m = CLAIM_TYPE_THRESHOLDS m.claim_type) ∧
      (m.score < selected_threshold m →
        apply_match_validation m cache false = (0, false)) := by
  intro m cache
  refine ⟨by norm_num [CLAIM_TYPE_THRESHOLDS], ?_, ?_, ?_⟩
  · intro sc hobj hspec htype
    simp [selected_threshold, hobj, hspec, htype]
  · intro hobj
    simp [selected_threshold, hobj]
  · intro hscore
    simp [apply_match_validation, hscore]

/-- C6 amended: serialize_quantifiers converts an infinite bound to the
sentinel 999999999 (and keeps finite bounds unchanged), but the search-time
reader (RoomSearcher.search) passes the stored quantifier dicts through to the
match unchanged: no conversion back to infinity happens on read. -/
theorem quantifier_sentinel_serialization :
    ∀ (q : Quantifier) (c : Claim) (hit : RoomHit),
      (q.vmax = PyVal.inf → (serialize_quantifier q).vmax = some (PyVal.num 999999999)) ∧
      (q.vmax ≠ PyVal.inf → (serialize_quantifier q).vmax = some q.vmax) ∧
      (q.vmin = PyVal.inf → (serialize_quantifier q).vmin = some (PyVal.num 999999999)) ∧
      (q.vmin ≠ PyVal.inf → (serialize_quantifier q).vmin = some q.vmin) ∧
      serialize_quantifiers [q] = [serialize_quantifier q] ∧
      (room_hit_to_match c hit).quantifiers = hit.quantifiers := by
  intro q c hit
  refine ⟨?_, ?_, ?_, ?_, rfl, rfl⟩ <;> intro h <;> simp [serialize_quantifier, h]

/-- C6 counterexample: a quantifier with vmax = inf is stored with the
sentinel 999999999 and read back verbatim — vmax stays the sentinel, not inf —
and a downstream LTE comparison against a bound above the sentinel accepts the
stored value although it would reject a genuinely infinite one. -/
theorem quantifier_sentinel_not_restored :
    serialize_quantifiers [inf_quantifier] = [sentinel_stored_quantifier] ∧
    (room_hit_to_match big_budget_claim sentinel_room_hit).quantifiers =
      [sentinel_stored_quantifier] ∧
    sentinel_stored_quantifier.vmax ≠ some PyVal.inf ∧
    validate_quantifiers big_budget_claim [sentinel_stored_quantifier] = true ∧
    validate_quantifiers big_budget_claim [restored_inf_quantifier] = false := by
  refine ⟨rfl, rfl, by decide, ?_, ?_⟩
  · norm_num [validate_quantifiers, big_budget_claim, quantifier_check,
      find_matched_quantifier, sentinel_stored_quantifier, QuantifierType.value, PyVal.le]
  · norm_num [validate_quantifiers, big_budget_claim, quantifier_check,
      find_matched_quantifier, restored_inf_quantifier, QuantifierType.value, PyVal.le]

/-- C8: should_ground_claim returns true exactly when grounding is enabled,
the claim's domain is not room, the claim is marked is_specific and its type
is location, transport or amenities. -/
theorem should_ground_claim_spec :
    ∀ (enable_grounding : Bool) (c : Claim),
      should_ground_claim enable_grounding c = true ↔
        enable_grounding = true ∧ c.domain ≠ Domain.room ∧ c.is_specific = true ∧
          (c.claim_type = ClaimType.location ∨ c.claim_type = ClaimType.transport ∨
            c.claim_type = ClaimType.amenities) := by
  intro eg c
  rcases c with ⟨cl, ct, dom, rt, isp, hqf, qs, k, fc, neg, src⟩
  cases eg <;> cases dom <;> cases isp <;> cases ct <;> simp [should_ground_claim]

theorem filter_redundant_eq_filter (claims : List Claim) (sf : StructuredFilters) :
    filter_redundant_claims claims sf =
      claims.filter (fun c =>
        !(decide (c.claim_type = ClaimType.pricing ∧ sf.rent_price_present = true)) &&
        !(decide (c.claim_type = ClaimType.restrictions ∧ sf.availability_dates_present = true
          ∧ mentions_availability c.claim = true))) := by
  induction claims with
  | nil => rfl
  | cons c rest ih =>
      simp only [filter_redundant_claims, List.filter_cons, ih]
      by_cases h1 : c.claim_type = ClaimType.pricing ∧ sf.rent_price_present = true
      · simp [h1]
      · by_cases h2 : c.claim_type = ClaimType.restrictions ∧ sf.availability_dates_present = true
            ∧ mentions_availability c.claim = true
        · simp [h1, h2]
        · simp [h1, h2]

/-- C9: when the structured filters contain a rent_price entry the filtered
query claims contain no PRICING claim; when they contain an
availability_dates entry the output contains no RESTRICTIONS claim whose text
mentions an availability keyword; and the output is exactly the input with
those claims removed, in order. -/
theorem filter_redundant_claims_spec :
    ∀ (claims : List Claim) (sf : StructuredFilters),
      (sf.rent_price_present = true →
        ∀ c ∈ filter_redundant_claims claims sf, c.claim_type ≠ ClaimType.pricing) ∧
      (sf.availability_dates_present = true →
        ∀ c ∈ filter_redundant_claims claims sf,
          ¬(c.claim_type = ClaimType.restrictions ∧ mentions_availability c.claim = true)) ∧
      filter_redundant_claims claims sf =
        claims.filter (fun c =>
          !(decide (c.claim_type = ClaimType.pricing ∧ sf.rent_price_present = true)) &&
          !(decide (c.claim_type = ClaimType.restrictions ∧ sf.availability_dates_present = true
            ∧ mentions_availability c.claim = true))) := by
  intro claims sf
  refine ⟨?_, ?_, filter_redundant_eq_filter claims sf⟩
  · intro hrp c hc hct
    rw [filter_redundant_eq_filter] at hc
    have h := (List.mem_filter.mp hc).2
    simp [hct, hrp] at h
  · intro hav c hc hand
    rw [filter_redundant_eq_filter] at hc
    have h := (List.mem_filter.mp hc).2
    obtain ⟨hct, hm⟩ := hand
    simp [hct, hav, hm] at h

/-- C10: inside apply_match_validation at most one of the three penalties
fires: a quantifier-validation failure scales by exactly 0.1 even for an
anti-kind match, an anti-kind match with valid quantifiers scales by exactly
0.01 (score at least 0.85) or 0.05, a negation mismatch on a non-anti match
with valid quantifiers scales by exactly 0.1, and a match with no
search_claim_obj keeps its raw score. -/
theorem apply_match_validation_penalties_exclusive (m : Match)
    (cache : String × String → String)
    (hcompat : cache (m.search_claim, m.matched_claim) = "compatible")
    (hpass : selected_threshold m ≤ m.score) :
    (∀ sc, m.search_claim_obj = some sc → validate_quantifiers sc m.quantifiers = false →
      apply_match_validation m cache false = (m.score * 0.1, true)) ∧
    (∀ sc, m.search_claim_obj = some sc → validate_quantifiers sc m.quantifiers = true →
      m.kind = "anti" → 0.85 ≤ m.score →
      apply_match_validation m cache false = (m.score * 0.01, true)) ∧
    (∀ sc, m.search_claim_obj = some sc → validate_quantifiers sc m.quantifiers = true →
      m.kind = "anti" → m.score < 0.85 →
      apply_match_validation m cache false = (m.score * 0.05, true)) ∧
    (∀ sc, m.search_claim_obj = some sc → validate_quantifiers sc m.quantifiers = true →
      m.kind ≠ "anti" → sc.negation ≠ m.matched_negation →
      apply_match_validation m cache false = (m.score * 0.1, true)) ∧
    (m.search_claim_obj = none → apply_match_validation m cache false = (m.score, true)) := by
  have hth : ¬(false = false ∧ m.score < selected_threshold m) := by
    rintro ⟨-, h⟩
    exact absurd hpass (not_le.mpr h)
  refine ⟨?_, ?_, ?_, ?_, ?_⟩
  · intro sc hobj hval
    simp [apply_match_validation, hth, hobj, hval, hcompat, hpass]
  · intro sc hobj hval hkind hge
    simp [apply_match_validation, hth, hobj, hval, hkind, hge, hcompat, hpass]
  · intro sc hobj hval hkind hlt
    simp [apply_match_validation, hth, hobj, hval, hkind, not_le.mpr hlt, hcompat, hpass]
  · intro sc hobj hval hkind hneg
    simp [apply_match_validation, hth, hobj, hval, hkind, hneg, hcompat, hpass]
  · intro hobj
    simp [apply_match_validation, hth, hobj, hcompat, hpass]

theorem apply_match_validation_penalties_exclusive_witness :
    apply_match_validation anti_invalid_match default_cache false =
      (anti_invalid_match.score * 0.1, true) :=
  (apply_match_validation_penalties_exclusive anti_invalid_match default_cache rfl
      (by norm_num [selected_threshold, anti_invalid_match, anti_invalid_claim,
        CLAIM_TYPE_THRESHOLDS])).1
    anti_invalid_claim rfl
    (by norm_num [validate_quantifiers, anti_invalid_claim, anti_invalid_match,
      quantifier_check, find_matched_quantifier, QuantifierType.value, PyVal.le])

/-- C1 amended: in the per-apartment scoring of rank_results each per-domain
score is the calculate_score_from_validated_matches of that domain's surviving
best matches against the search claims OF THAT DOMAIN: the sum of validated
scores divided by the number of in-domain search claims (0 when either side is
empty), not by the total number of search claims. -/
theorem per_domain_score_in_domain_denominator :
    ∀ (all_room_matches all_apt_matches all_neighborhood_matches : List Match)
      (search_claims : List Claim) (cache : String × String → String) (dc : Bool),
      (rank_scores_for_apartment all_room_matches all_apt_matches all_neighborhood_matches
          search_claims cache dc).1 =
        (if (search_claims.filter (fun c => c.domain == Domain.room)).isEmpty ||
            (get_validated_best_matches all_room_matches cache dc).isEmpty then 0
         else sum_validated_scores (get_validated_best_matches all_room_matches cache dc) /
            (((search_claims.filter (fun c => c.domain == Domain.room)).length : ℚ))) ∧
      (rank_scores_for_apartment all_room_matches all_apt_matches all_neighborhood_matches
          search_claims cache dc).2.1 =
        (if (search_claims.filter (fun c => c.domain == Domain.apartment)).isEmpty ||
            (get_validated_best_matches all_apt_matches cache dc).isEmpty then 0
         else sum_validated_scores (get_validated_best_matches all_apt_matches cache dc) /
            (((search_claims.filter (fun c => c.domain == Domain.apartment)).length : ℚ))) ∧
      (rank_scores_for_apartment all_room_matches all_apt_matches all_neighborhood_matches
          search_claims cache dc).2.2 =
        (if (search_claims.filter (fun c => c.domain == Domain.neighborhood)).isEmpty ||
            (get_validated_best_matches all_neighborhood_matches cache dc).isEmpty then 0
         else sum_validated_scores (get_validated_best_matches all_neighborhood_matches cache dc) /
            (((search_claims.filter (fun c => c.domain == Domain.neighborhood)).length : ℚ))) := by
  intro rm am nm sc cache dc
  exact ⟨rfl, rfl, rfl⟩

/-- C1 counterexample: with one room search claim and one apartment search
claim (two search claims in total) and a single surviving room match of
validated score 0.8, the room domain score is 0.8 — the sum divided by the one
in-domain search claim — and not 0.8 / 2, the value the claim's
total-denominator reading predicts. -/
theorem per_domain_score_total_denominator_false :
    (rank_scores_for_apartment [room_desk_match] [] [] [room_desk_claim, balcony_claim]
        default_cache false).1 = 0.8 ∧
    sum_validated_scores (get_validated_best_matches [room_desk_match] default_cache false) = 0.8 ∧
    ([room_desk_claim, balcony_claim] : List Claim).length = 2 ∧
    ¬((0.8 : ℚ) = 0.8 / 2) := by
  have hmatch : apply_match_validation room_desk_match default_cache false = (0.8, true) := by
    simp only [apply_match_validation, selected_threshold, room_desk_match, room_desk_claim,
      validate_quantifiers, default_cache, CLAIM_TYPE_THRESHOLDS]
    norm_num
    simp
  have hbest : get_validated_best_matches [room_desk_match] default_cache false =
      [(room_desk_match.search_claim, (room_desk_match, 0.8))] := by
    simp only [get_validated_best_matches, List.foldl, hmatch, lookup_validated, List.find?]
    norm_num
  refine ⟨?_, ?_, rfl, by norm_num⟩
  · have hb1 : (Domain.room == Domain.room) = true := by decide
    have hb2 : (Domain.apartment == Domain.room) = false := by decide
    simp only [rank_scores_for_apartment, calculate_score_from_validated_matches, hbest,
      room_desk_claim, balcony_claim, List.filter, hb1, hb2]
    norm_num [sum_validated_scores, room_desk_match]
  · rw [hbest]
    norm_num [sum_validated_scores]

theorem foldl_max_score_le (c : ℚ) :
    ∀ (l : List Match) (a : ℚ), a ≤ c → (∀ m ∈ l, m.score ≤ c) →
      l.foldl (fun acc x => max acc x.score) a ≤ c := by
  intro l
  induction l with
  | nil => intro a ha _; simpa using ha
  | cons m rest ih =>
      intro a ha h
      simp only [List.foldl]
      exact ih (max a m.score) (max_le ha (h m (by simp))) (fun x hx => h x (by simp [hx]))

theorem group_triggers_iff (all : List Match) (t : ℚ) (s : String) :
    group_triggers all t s = true ↔
      (anti_matches all s).isEmpty = false ∧
      t ≤ (best_score_opt (anti_matches all s)).getD 0 ∧
      (best_score_opt (positive_matches all s)).getD 0 <
        (best_score_opt (anti_matches all s)).getD 0 := by
  unfold group_triggers
  by_cases hA : (anti_matches all s).isEmpty = true
  · simp [hA]
  · have hA' : (anti_matches all s).isEmpty = false := Bool.eq_false_iff.mpr hA
    by_cases hB : (best_score_opt (anti_matches all s)).getD 0 < t
    · simp [hA', hB, not_le.mpr hB]
    · simp [hA', hB, not_lt.mp hB]

/-- C4: filter_by_anti_claims drops an apartment only when some search-claim
group of its gathered matches has a best anti score at least 0.90 that is
strictly greater than the group's best positive score; and when every
anti-kind match scores at most 0.89, the apartment is never dropped whatever
the positive scores are. -/
theorem anti_claim_gate_spec (apartments : List String)
    (room_matches apartment_matches neighborhood_matches : List (String × List Match))
    (apt : String) (hmem : apt ∈ apartments) :
    (apt ∉ filter_by_anti_claims apartments room_matches apartment_matches neighborhood_matches
        anti_claim_threshold →
      ∃ s ∈ ordered_keys ((all_matches_for_apartment room_matches apartment_matches
          neighborhood_matches apt).map (fun m => m.search_claim)),
        (anti_matches (all_matches_for_apartment room_matches apartment_matches
          neighborhood_matches apt) s).isEmpty = false ∧
        anti_claim_threshold ≤ (best_score_opt (anti_matches (all_matches_for_apartment
          room_matches apartment_matches neighborhood_matches apt) s)).getD 0 ∧
        (best_score_opt (positive_matches (all_matches_for_apartment room_matches
          apartment_matches neighborhood_matches apt) s)).getD 0 <
          (best_score_opt (anti_matches (all_matches_for_apartment room_matches
            apartment_matches neighborhood_matches apt) s)).getD 0) ∧
    ((∀ m ∈ all_matches_for_apartment room_matches apartment_matches neighborhood_matches apt,
        m.kind = "anti" → m.score ≤ 0.89) →
      apt ∈ filter_by_anti_claims apartments room_matches apartment_matches
        neighborhood_matches anti_claim_threshold) := by
  constructor
  · intro hdrop
    have hex : should_exclude_apartment (all_matches_for_apartment room_matches
        apartment_matches neighborhood_matches apt) anti_claim_threshold = true := by
      by_contra hne
      apply hdrop
      rw [filter_by_anti_claims, List.mem_filter]
      refine ⟨hmem, ?_⟩
      simp [Bool.eq_false_iff.mpr hne]
    rw [should_exclude_apartment, List.any_eq_true] at hex
    obtain ⟨s, hs, hcond⟩ := hex
    exact ⟨s, hs, (group_triggers_iff _ _ s).mp hcond⟩
  · intro hsmall
    rw [filter_by_anti_claims, List.mem_filter]
    refine ⟨hmem, ?_⟩
    have hfalse : should_exclude_apartment (all_matches_for_apartment room_matches
        apartment_matches neighborhood_matches apt) anti_claim_threshold = false := by
      rw [should_exclude_apartment, List.any_eq_false]
      intro s hs
      intro htrig
      obtain ⟨hne, hth, _⟩ := (group_triggers_iff _ _ s).mp htrig
      have hle : (best_score_opt (anti_matches (all_matches_for_apartment room_matches
          apartment_matches neighborhood_matches apt) s)).getD 0 ≤ 0.89 := by
        cases hlist : anti_matches (all_matches_for_apartment room_matches apartment_matches
            neighborhood_matches apt) s with
        | nil => rw [hlist] at hne; simp at hne
        | cons m rest =>
            have hall : ∀ x ∈ anti_matches (all_matches_for_apartment room_matches
                apartment_matches neighborhood_matches apt) s, x.score ≤ 0.89 := by
              intro x hx
              have hx' := List.mem_filter.mp hx
              have hkind : x.kind = "anti" := by
                have h2 := hx'.2
                simp only [Bool.and_eq_true, beq_iff_eq] at h2
                exact h2.2
              exact hsmall x hx'.1 hkind
            simp only [best_score_opt, Option.getD_some]
            exact foldl_max_score_le 0.89 rest m.score
              (hall m (by rw [hlist]; exact List.mem_cons_self m rest))
              (fun x hx => hall x (by rw [hlist]; exact List.mem_cons_of_mem m hx))
      have : (0.90 : ℚ) ≤ 0.89 := le_trans (by norm_num [anti_claim_threshold] at hth ⊢; exact hth) hle
      norm_num at this
    simp [hfalse]

theorem anti_claim_gate_spec_witness :
    ("apt1" ∉ filter_by_anti_claims ["apt1"] anti_gate_room_matches [] []
        anti_claim_threshold →
      ∃ s ∈ ordered_keys ((all_matches_for_apartment anti_gate_room_matches [] []
          "apt1").map (fun m => m.search_claim)),
        (anti_matches (all_matches_for_apartment anti_gate_room_matches [] []
          "apt1") s).isEmpty = false ∧
        anti_claim_threshold ≤ (best_score_opt (anti_matches (all_matches_for_apartment
          anti_gate_room_matches [] [] "apt1") s)).getD 0 ∧
        (best_score_opt (positive_matches (all_matches_for_apartment anti_gate_room_matches
          [] [] "apt1") s)).getD 0 <
          (best_score_opt (anti_matches (all_matches_for_apartment anti_gate_room_matches
            [] [] "apt1") s)).getD 0) ∧
    ((∀ m ∈ all_matches_for_apartment anti_gate_room_matches [] [] "apt1",
        m.kind = "anti" → m.score ≤ 0.89) →
      "apt1" ∈ filter_by_anti_claims ["apt1"] anti_gate_room_matches [] []
        anti_claim_threshold) :=
  anti_claim_gate_spec ["apt1"] anti_gate_room_matches [] [] "apt1"
    (List.mem_singleton.mpr rfl)

theorem dedupe_scan_nil {E : Type} (sim : E → E → ℚ) (t : ℚ) :
    dedupe_scan sim t ([] : List (Claim × E)) = [] := by
  simp [dedupe_scan]

theorem dedupe_scan_cons {E : Type} (sim : E → E → ℚ) (t : ℚ) (c : Claim) (e : E)
    (rest : List (Claim × E)) :
    dedupe_scan sim t ((c, e) :: rest) =
      dedup_head_claim c ((rest.filter (fun p => decide (sim e p.2 ≥ t))).map Prod.fst) ::
        dedupe_scan sim t (rest.filter (fun p => decide (sim e p.2 < t))) := by
  rw [dedupe_scan]

theorem dedup_head_claim_text (c : Claim) (dups : List Claim) :
    (dedup_head_claim c dups).claim = c.claim := by
  simp only [dedup_head_claim]
  split <;> rfl

theorem dedup_head_claim_nil (c : Claim) : dedup_head_claim c [] = c := rfl

theorem dedupe_scan_text_sublist {E : Type} (sim : E → E → ℚ) (t : ℚ) :
    ∀ (n : ℕ) (l : List (Claim × E)), l.length ≤ n →
      ((dedupe_scan sim t l).map Claim.claim).Sublist (l.map (fun p => p.1.claim)) := by
  intro n
  induction n with
  | zero =>
      intro l hl
      have hnil : l = [] := List.length_eq_zero.mp (Nat.le_zero.mp hl)
      subst hnil
      simp [dedupe_scan_nil]
  | succ n ih =>
      intro l hl
      match l with
      | [] => simp [dedupe_scan_nil]
      | (c, e) :: rest =>
          rw [dedupe_scan_cons]
          simp only [List.map_cons, dedup_head_claim_text]
          refine List.Sublist.cons₂ _ ?_
          refine List.Sublist.trans
            (ih (rest.filter (fun p => decide (sim e p.2 < t))) ?_) ?_
          · refine le_trans (List.length_filter_le _ _) ?_
            simpa [List.length_cons, Nat.succ_le_succ_iff] using hl
          · exact List.Sublist.map _ (List.filter_sublist _)

theorem dedupe_scan_sublist {E : Type} (sim : E → E → ℚ) (t : ℚ) (l : List (Claim × E)) :
    ((dedupe_scan sim t l).map Claim.claim).Sublist (l.map (fun p => p.1.claim)) :=
  dedupe_scan_text_sublist sim t l.length l le_rfl

theorem mem_dedupe_scan_text {E : Type} {sim : E → E → ℚ} {t : ℚ} {l : List (Claim × E)}
    {b : Claim} (hb : b ∈ dedupe_scan sim t l) : b.claim ∈ l.map (fun p => p.1.claim) :=
  (dedupe_scan_sublist sim t l).subset (List.mem_map_of_mem Claim.claim hb)

theorem dedupe_scan_pairwise_fuel {E : Type} (sim : E → E → ℚ) (t : ℚ) (embed : String → E) :
    ∀ (n : ℕ) (l : List (Claim × E)), l.length ≤ n →
      (∀ p ∈ l, p.2 = embed p.1.claim) →
      (dedupe_scan sim t l).Pairwise (fun a b => sim (embed a.claim) (embed b.claim) < t) := by
  intro n
  induction n with
  | zero =>
      intro l hl _
      have hnil : l = [] := List.length_eq_zero.mp (Nat.le_zero.mp hl)
      subst hnil
      simp [dedupe_scan_nil]
  | succ n ih =>
      intro l hl hcons
      match l with
      | [] => simp [dedupe_scan_nil]
      | (c, e) :: rest =>
          rw [dedupe_scan_cons]
          rw [List.pairwise_cons]
          constructor
          · intro b hb
            obtain ⟨p, hp, hptext⟩ := List.mem_map.mp (mem_dedupe_scan_text hb)
            have hpmem := List.mem_filter.mp hp
            have hlt : sim e p.2 < t := of_decide_eq_true hpmem.2
            have he : e = embed c.claim := hcons (c, e) (List.mem_cons_self _ _)
            have hp2 : p.2 = embed p.1.claim := hcons p (List.mem_cons_of_mem _ hpmem.1)
            rw [dedup_head_claim_text, ← he, ← hptext, ← hp2]
            exact hlt
          · apply ih
            · refine le_trans (List.length_filter_le _ _) ?_
              simpa [List.length_cons, Nat.succ_le_succ_iff] using hl
            · intro p hp
              exact hcons p (List.mem_cons_of_mem _ (List.mem_filter.mp hp).1)

theorem dedupe_scan_of_pairwise_fuel {E : Type} (sim : E → E → ℚ) (t : ℚ) :
    ∀ (n : ℕ) (l : List (Claim × E)), l.length ≤ n →
      l.Pairwise (fun p q => sim p.2 q.2 < t) →
      dedupe_scan sim t l = l.map Prod.fst := by
  intro n
  induction n with
  | zero =>
      intro l hl _
      have hnil : l = [] := List.length_eq_zero.mp (Nat.le_zero.mp hl)
      subst hnil
      simp [dedupe_scan_nil]
  | succ n ih =>
      intro l hl hpw
      match l with
      | [] => simp [dedupe_scan_nil]
      | (c, e) :: rest =>
          rw [dedupe_scan_cons]
          rw [List.pairwise_cons] at hpw
          obtain ⟨hhead, htail⟩ := hpw
          have hdups : rest.filter (fun p => decide (sim e p.2 ≥ t)) = [] := by
            rw [List.filter_eq_nil_iff]
            intro p hp
            simp only [decide_eq_true_eq]
            exact not_le.mpr (hhead p hp)
          have hunseen : rest.filter (fun p => decide (sim e p.2 < t)) = rest := by
            rw [List.filter_eq_self]
            intro p hp
            exact decide_eq_true (hhead p hp)
          rw [hdups, hunseen, List.map_nil, dedup_head_claim_nil]
          rw [ih rest (by simpa [List.length_cons, Nat.succ_le_succ_iff] using hl) htail]
          rfl

theorem dedupe_scan_drop_fuel {E : Type} (sim : E → E → ℚ) (t : ℚ) :
    ∀ (n : ℕ) (l : List (Claim × E)), l.length ≤ n →
      ∀ (u : List (Claim × E)) (p : Claim × E) (v : List (Claim × E)), l = u ++ p :: v →
        p.1.claim ∉ (dedupe_scan sim t l).map Claim.claim →
        ∃ k ∈ u, k.1.claim ∈ (dedupe_scan sim t l).map Claim.claim ∧ t ≤ sim k.2 p.2 := by
  intro n
  induction n with
  | zero =>
      intro l hl u p v heq hnot
      exfalso
      subst heq
      simp at hl
  | succ n ih =>
      intro l hl u p v heq hnot
      cases u with
      | nil =>
          exfalso
          obtain ⟨c0, e0⟩ := p
          simp only [List.nil_append] at heq
          subst heq
          apply hnot
          rw [dedupe_scan_cons]
          simp [dedup_head_claim_text]
      | cons ce u' =>
          obtain ⟨c, e⟩ := ce
          simp only [List.cons_append] at heq
          subst heq
          rw [dedupe_scan_cons] at hnot ⊢
          by_cases hd : t ≤ sim e p.2
          · refine ⟨(c, e), List.mem_cons_self _ _, ?_, hd⟩
            simp [dedup_head_claim_text]
          · have hplt : sim e p.2 < t := not_le.mp hd
            have hfilter : (u' ++ p :: v).filter (fun q => decide (sim e q.2 < t)) =
                u'.filter (fun q => decide (sim e q.2 < t)) ++
                  p :: v.filter (fun q => decide (sim e q.2 < t)) := by
              rw [List.filter_append, List.filter_cons]
              simp [hplt]
            have hnot' : p.1.claim ∉
                (dedupe_scan sim t ((u' ++ p :: v).filter
                  (fun q => decide (sim e q.2 < t)))).map Claim.claim := by
              intro hmem
              apply hnot
              simp only [List.map_cons]
              exact List.mem_cons_of_mem _ hmem
            have hlen' : ((u' ++ p :: v).filter (fun q => decide (sim e q.2 < t))).length ≤ n := by
              refine le_trans (List.length_filter_le _ _) ?_
              simpa [List.length_cons, Nat.succ_le_succ_iff] using hl
            obtain ⟨k, hk, hkmem, hksim⟩ :=
              ih ((u' ++ p :: v).filter (fun q => decide (sim e q.2 < t))) hlen'
                (u'.filter (fun q => decide (sim e q.2 < t))) p
                (v.filter (fun q => decide (sim e q.2 < t))) hfilter hnot'
            refine ⟨k, List.mem_cons_of_mem _ (List.mem_of_mem_filter hk), ?_, hksim⟩
            simp only [List.map_cons]
            exact List.mem_cons_of_mem _ hkmem

/-- C7: with the similarity of embeddings given as a function (the embedding
provider is deterministic), deduplicate_claims is idempotent, keeps surviving
claim texts as an order-preserving sublist of the input texts, and a text that
is dropped has similarity at least the 0.98 threshold to the text of an
earlier claim that was kept. -/
theorem deduplicate_claims_idempotent_stable {E : Type} (sim : E → E → ℚ)
    (embed : String → E) (claims : List Claim) :
    deduplicate_claims sim similarity_threshold embed
        (deduplicate_claims sim similarity_threshold embed claims) =
      deduplicate_claims sim similarity_threshold embed claims ∧
    ((deduplicate_claims sim similarity_threshold embed claims).map Claim.claim).Sublist
      (claims.map Claim.claim) ∧
    (∀ u c v, claims = u ++ c :: v →
      c.claim ∉ (deduplicate_claims sim similarity_threshold embed claims).map Claim.claim →
      ∃ k ∈ u,
        k.claim ∈ (deduplicate_claims sim similarity_threshold embed claims).map Claim.claim ∧
        similarity_threshold ≤ sim (embed k.claim) (embed c.claim)) := by
  by_cases hlen : claims.length ≤ 1
  · have hout : deduplicate_claims sim similarity_threshold embed claims = claims := by
      simp [deduplicate_claims, hlen]
    refine ⟨?_, ?_, ?_⟩
    · rw [hout, hout]
    · rw [hout]
    · intro u c v heq hnot
      exfalso
      apply hnot
      rw [hout, heq]
      simp
  · have hout : deduplicate_claims sim similarity_threshold embed claims =
        dedupe_scan sim similarity_threshold (claims.map (fun c => (c, embed c.claim))) := by
      simp [deduplicate_claims, hlen]
    have hconsistent : ∀ p ∈ claims.map (fun c => (c, embed c.claim)), p.2 = embed p.1.claim := by
      intro p hp
      obtain ⟨c0, hc0, rfl⟩ := List.mem_map.mp hp
      rfl
    refine ⟨?_, ?_, ?_⟩
    · rw [hout]
      by_cases hlen2 : (dedupe_scan sim similarity_threshold
          (claims.map (fun c => (c, embed c.claim)))).length ≤ 1
      · simp [deduplicate_claims, hlen2]
      · have hpw : (dedupe_scan sim similarity_threshold
            (claims.map (fun c => (c, embed c.claim)))).Pairwise
            (fun a b => sim (embed a.claim) (embed b.claim) < similarity_threshold) :=
          dedupe_scan_pairwise_fuel sim similarity_threshold embed _ _ le_rfl hconsistent
        have hpw2 : ((dedupe_scan sim similarity_threshold
            (claims.map (fun c => (c, embed c.claim)))).map
              (fun c => (c, embed c.claim))).Pairwise
            (fun p q => sim p.2 q.2 < similarity_threshold) := by
          rw [List.pairwise_map]
          exact hpw
        have hid := dedupe_scan_of_pairwise_fuel sim similarity_threshold _ _ le_rfl hpw2
        simp only [deduplicate_claims, hlen2, if_false]
        rw [hid, List.map_map]
        exact List.map_id _
    · rw [hout]
      have h := dedupe_scan_sublist sim similarity_threshold
        (claims.map (fun c => (c, embed c.claim)))
      simpa [List.map_map, Function.comp] using h
    · intro u c v heq hnot
      rw [hout] at hnot ⊢
      have hdecomp : claims.map (fun c => (c, embed c.claim)) =
          (u.map (fun c => (c, embed c.claim))) ++
            ((c, embed c.claim) :: v.map (fun c => (c, embed c.claim))) := by
        rw [heq]
        simp
      obtain ⟨k, hk, hkmem, hksim⟩ :=
        dedupe_scan_drop_fuel sim similarity_threshold _ _ le_rfl
          (u.map (fun c => (c, embed c.claim))) (c, embed c.claim)
          (v.map (fun c => (c, embed c.claim))) hdecomp hnot
      obtain ⟨k0, hk0, rfl⟩ := List.mem_map.mp hk
      exact ⟨k0, hk0, hkmem, hksim⟩
